import Mathlib

/-!
Verification development for the protocol/gateway layer of the airbnb MCP
server.  The definitions below are a shallow embedding of the TypeScript
sources: the `HTTPMCPServer` class of `http-server.ts` (authentication,
JSON-RPC dispatch on `/mcp`, the REST aliases, the terminal error handler)
and the stdio runner of `index.ts`.  JavaScript strings are modelled as Lean
strings with the JavaScript primitives (`startsWith`, `substring`, `trim`,
`split`) rendered as structural functions on the character list, which is
what the JavaScript operations compute at the code-point level.  The two
collaborator tools (`handleAirbnbSearch`, `handleAirbnbListingDetails` from
`mcp-core.ts`) and the SHA-256 digest are external to the embedded layer and
appear as parameters.
-/

namespace AirbnbMCP

/-! ### JavaScript string primitives -/

/-- Renders JavaScript `s.startsWith(pre)`: the leading code points of `s`
equal `pre`. -/
def jsStartsWith (s pre : String) : Bool :=
  pre.data.isPrefixOf s.data

/-- Renders JavaScript `s.substring(n)`: drop the first `n` code points. -/
def jsSubstringFrom (s : String) (n : Nat) : String :=
  ⟨s.data.drop n⟩

/-- Renders JavaScript `s.substring(0, n)`: keep the first `n` code points. -/
def jsTake (s : String) (n : Nat) : String :=
  ⟨s.data.take n⟩

/-- Whitespace removed by JavaScript `s.trim()` (the core whitespace set). -/
def isJsSpace (c : Char) : Bool :=
  c = ' ' || c = '\t' || c = '\n' || c = '\r'

/-- Renders JavaScript `s.trim()`: strip leading and trailing whitespace. -/
def jsTrim (s : String) : String :=
  ⟨((s.data.dropWhile isJsSpace).reverse.dropWhile isJsSpace).reverse⟩

/-- Helper for `jsSplitComma`: accumulates the current field (reversed). -/
def splitCommaAux : List Char → List Char → List String
  | [], acc => [⟨acc.reverse⟩]
  | c :: cs, acc =>
    if c = ',' then ⟨acc.reverse⟩ :: splitCommaAux cs []
    else splitCommaAux cs (c :: acc)

/-- Renders JavaScript `s.split(',')`; in particular `"".split(',')` is
`[""]`, never the empty list. -/
def jsSplitComma (s : String) : List String :=
  splitCommaAux s.data []

/-- Substring containment: `needle` occurs contiguously inside `hay`. -/
def containsStr (hay needle : String) : Prop :=
  needle.data <:+: hay.data

instance (hay needle : String) : Decidable (containsStr hay needle) :=
  inferInstanceAs (Decidable (needle.data <:+: hay.data))

/-! ### Data model -/

/-- A JSON scalar as it appears in request bodies and tool arguments. -/
inductive JsonV
  | str (s : String)
  | num (n : Int)
  | bool (b : Bool)
  | null
deriving DecidableEq

/-- A JavaScript object rendered as its ordered key/value pairs; a later
binding shadows an earlier one, as in an object literal with a spread. -/
abbrev JsObject := List (String × JsonV)

/-- Property lookup on a `JsObject`: the last binding of a key wins, matching
JavaScript object-literal evaluation order. -/
def jsGet (o : JsObject) (k : String) : Option JsonV :=
  match o with
  | [] => none
  | (k', v) :: rest =>
    match jsGet rest k with
    | some w => some w
    | none => if k' = k then some v else none

/-- A JSON-RPC correlation id; the TypeScript field type is
`string | number`. -/
inductive RpcId
  | str (s : String)
  | num (n : Int)
deriving DecidableEq

/-- JavaScript truthiness of an id value: `0` and `""` are falsy. -/
def RpcId.isTruthy : RpcId → Bool
  | .str s => s ≠ ""
  | .num n => n ≠ 0

/-- Renders the expression `id || null` on an optional id (an absent id is
also falsy). -/
def idOrNull (i : Option RpcId) : Option RpcId :=
  match i with
  | some x => if x.isTruthy then some x else none
  | none => none

/-- JavaScript falsiness of an optional string (absent or empty). -/
def strOptFalsy : Option String → Bool
  | none => true
  | some s => s = ""

/-- A content block inside a tool result.  The `errorJson` form is the block
the stdio catch-all builds from a non-protocol failure (its second component
is the timestamp read from the clock, passed in as a parameter). -/
inductive ContentBlock
  | text (s : String)
  | errorJson (message timestamp : String)
deriving DecidableEq

/-- Collaborator tool result: `{content, isError}`. -/
structure ToolResult where
  content : List ContentBlock
  isError : Bool
deriving DecidableEq

/-- The fixed five-member JSON-RPC error-code taxonomy (`ErrorCode` of the
MCP SDK). -/
inductive ErrorCode
  | parseError
  | invalidRequest
  | methodNotFound
  | invalidParams
  | internalError
deriving DecidableEq

/-- Numeric value of each taxonomy member (JSON-RPC 2.0). -/
def ErrorCode.toInt : ErrorCode → Int
  | .parseError => -32700
  | .invalidRequest => -32600
  | .methodNotFound => -32601
  | .invalidParams => -32602
  | .internalError => -32603

/-- An exception as the `catch` blocks observe it: an SDK `McpError` carrying
a taxonomy code, some other `Error` carrying a message, or a thrown
non-`Error` value (whose `String(error)` rendering is `repr`). -/
inductive Thrown
  | mcp (code : ErrorCode) (msg : String)
  | jsError (msg : String)
  | nonError (repr : String)
deriving DecidableEq

/-- Renders `error instanceof McpError ? error.code : ErrorCode.InternalError`. -/
def Thrown.codeOut : Thrown → ErrorCode
  | .mcp c _ => c
  | .jsError _ => .internalError
  | .nonError _ => .internalError

/-- Renders `error instanceof Error ? error.message : 'Unknown error'`. -/
def Thrown.msgOut : Thrown → String
  | .mcp _ m => m
  | .jsError m => m
  | .nonError _ => "Unknown error"

/-- The two collaborator tool implementations (`handleAirbnbSearch` and
`handleAirbnbListingDetails` from `mcp-core.ts`), abstracted: each receives
the argument object and either returns a `ToolResult` or throws. -/
structure ToolEnv where
  search : JsObject → Except Thrown ToolResult
  details : JsObject → Except Thrown ToolResult

/-- A tool descriptor of the published catalog.  Modelled from the spec: the
catalog constant `AIRBNB_TOOLS` is defined in `mcp-core.ts`, which is not
among the sources here (only its importers are); only the name key, the field
the development needs, is modelled. -/
structure ToolDescriptor where
  name : String
deriving DecidableEq

/-- Modelled from the spec: the static ordered tool catalog of `mcp-core.ts`
(§4.2: a fixed mapping in declaration order), with the two tool names that
the dispatch switches of `http-server.ts` and `index.ts` recognize. -/
def AIRBNB_TOOLS : List ToolDescriptor :=
  [⟨"airbnb_search"⟩, ⟨"airbnb_listing_details"⟩]

/-! ### Token store and authentication (http-server.ts lines 88-132) -/

/-- Renders `hash.substring(0, 8) + '...'`: the truncated digest prefix that
is the only credential-derived datum ever logged. -/
def truncDigest (d : String) : String :=
  jsTake d 8 ++ "..."

/-- Renders `process.env.MCP_ACCESS_TOKENS?.split(',') || []`: an unset
variable is the empty list, a set one is split on commas. -/
def patsFromEnv (envVar : Option String) : List String :=
  match envVar with
  | none => []
  | some s => jsSplitComma s

/-- The trimmed non-empty entries of the configured token list: exactly the
plaintexts whose digests `setupAuthentication` stores. -/
def storedPlaintexts (pats : List String) : List String :=
  (pats.map jsTrim).filter (fun t => t ≠ "")

/-- The observable state `setupAuthentication` builds: the digest set, whether
the no-tokens warning fired, and the `tokenHash` fields of the per-token load
logs. -/
structure TokenStoreState where
  validTokenHashes : List String
  warnedNoTokens : Bool
  loadLogs : List String
deriving DecidableEq

/-- Embeds `HTTPMCPServer.setupAuthentication` (http-server.ts lines 88-104),
parameterized by the digest function (`crypto.createHash('sha256')`, external
to the repository): warns when the raw list is empty, then for each entry
with a non-empty trim stores the digest of the trimmed entry and logs its
truncated prefix. -/
def setupAuthentication (hash : String → String) (pats : List String) :
    TokenStoreState :=
  { warnedNoTokens := pats.isEmpty
  , validTokenHashes := (storedPlaintexts pats).map hash
  , loadLogs := (storedPlaintexts pats).map (fun t => truncDigest (hash t)) }

/-- Outcome of the authentication middleware; an invalid token records the
`tokenHash` field of the warn log it emits. -/
inductive AuthOutcome
  | malformedHeader
  | invalidToken (logged : String)
  | success (tokenHash : String)
deriving DecidableEq

/-- Embeds `HTTPMCPServer.authenticateToken` (http-server.ts lines 106-132):
a missing header or one not starting with `Bearer ` fails as malformed;
otherwise the remainder is digested and checked against the stored set. -/
def authenticateToken (hash : String → String) (store : List String)
    (authHeader : Option String) : AuthOutcome :=
  match authHeader with
  | none => .malformedHeader
  | some h =>
    if h = "" then .malformedHeader
    else if jsStartsWith h "Bearer " then
      let token := jsSubstringFrom h 7
      let tokenHash := hash token
      if store.contains tokenHash then .success tokenHash
      else .invalidToken (truncDigest tokenHash)
    else .malformedHeader

/-- The HTTP status the middleware responds with: 401 on either failure,
none (pass-through to the route handler) on success. -/
def AuthOutcome.httpStatus : AuthOutcome → Option Nat
  | .success _ => none
  | .malformedHeader => some 401
  | .invalidToken _ => some 401

/-! ### Request/response shapes of the /mcp endpoint -/

/-- The `params` object of an MCP request as the handlers read it. -/
structure MCPParams where
  name : Option String
  arguments : Option JsObject
deriving DecidableEq

/-- The request body of `POST /mcp` as `handleMCPRequest` reads it; every
field can be absent from the JSON. -/
structure MCPRequest where
  jsonrpc : Option String
  id : Option RpcId
  method : Option String
  params : Option MCPParams
deriving DecidableEq

/-- Renders `!mcpRequest.params?.name`. -/
def paramsNameFalsy : Option MCPParams → Bool
  | none => true
  | some p => strOptFalsy p.name

/-- The `result` value of a successful JSON-RPC dispatch. -/
inductive RpcResult
  | tools (ts : List ToolDescriptor)
  | toolResult (r : ToolResult)
deriving DecidableEq

/-- An HTTP response body as one of the shapes the routes construct. -/
inductive RespBody
  | rpcResult (id : Option RpcId) (result : RpcResult)
  | rpcError (id : Option RpcId) (code : ErrorCode) (message : String)
  | errMsg (error : String)
  | errBody (error message : String)
  | raw (r : ToolResult)
deriving DecidableEq

/-- An HTTP response: status code and body. -/
structure HttpResp where
  status : Nat
  body : RespBody
deriving DecidableEq

/-! ### Tool dispatch and the /mcp endpoint (http-server.ts lines 188-307) -/

/-- Embeds `HTTPMCPServer.callTool` (http-server.ts lines 298-307): name-keyed
dispatch to the two collaborator tools; any other name throws an SDK error
with the method-not-found code. -/
def callTool (env : ToolEnv) (name : String) (args : JsObject) :
    Except Thrown ToolResult :=
  match name with
  | "airbnb_search" => env.search args
  | "airbnb_listing_details" => env.details args
  | _ => .error (.mcp .methodNotFound ("Unknown tool: " ++ name))

/-- The `switch (mcpRequest.method)` body of `handleMCPRequest` (http-server.ts
lines 205-222): `tools/list` yields the catalog; `tools/call` first requires a
truthy `params?.name` and then invokes `callTool` with
`params.arguments || {}`; any other method throws method-not-found. -/
def mcpDispatch (env : ToolEnv) (req : MCPRequest) : Except Thrown RpcResult :=
  match req.method with
  | some "tools/list" => .ok (.tools AIRBNB_TOOLS)
  | some "tools/call" =>
    match req.params with
    | none => .error (.mcp .invalidParams "Tool name is required")
    | some p =>
      match p.name with
      | none => .error (.mcp .invalidParams "Tool name is required")
      | some n =>
        if n = "" then .error (.mcp .invalidParams "Tool name is required")
        else (callTool env n (p.arguments.getD [])).map .toolResult
  | some m => .error (.mcp .methodNotFound ("Method not found: " ++ m))
  | none => .error (.mcp .methodNotFound "Method not found: undefined")

/-- The response construction of `handleMCPRequest`: success replies 200 with
the verbatim request id; the catch block replies 400 with `req.body.id || null`
and the code/message extracted from the thrown value. -/
def mcpRespond (id : Option RpcId) (o : Except Thrown RpcResult) : HttpResp :=
  match o with
  | .ok result => ⟨200, .rpcResult id result⟩
  | .error t => ⟨400, .rpcError (idOrNull id) t.codeOut t.msgOut⟩

/-- Embeds `HTTPMCPServer.handleMCPRequest` (http-server.ts lines 188-243):
a body whose `jsonrpc` tag is not exactly `"2.0"` is rejected 400 with the
invalid-request code; otherwise the dispatch outcome is encoded by
`mcpRespond`. -/
def handleMCPRequest (env : ToolEnv) (req : MCPRequest) : HttpResp :=
  if req.jsonrpc = some "2.0" then mcpRespond req.id (mcpDispatch env req)
  else ⟨400, .rpcError (idOrNull req.id) .invalidRequest "Invalid JSON-RPC version"⟩

/-! ### REST aliases (http-server.ts lines 245-296) -/

/-- The request body of `POST /api/tools/call` as `handleCallTool` reads it. -/
structure CallToolBody where
  name : Option String
  arguments : Option JsObject

/-- Embeds `HTTPMCPServer.handleCallTool` (http-server.ts lines 255-271): a
falsy `name` replies 400 with an explicit message; otherwise `callTool` is
invoked with `arguments || {}`, a returned result is passed through raw with
status 200, and a thrown error is caught and reported 400. -/
def handleCallTool (env : ToolEnv) (body : CallToolBody) : HttpResp :=
  match body.name with
  | none => ⟨400, .errMsg "Tool name is required"⟩
  | some n =>
    if n = "" then ⟨400, .errMsg "Tool name is required"⟩
    else
      match callTool env n (body.arguments.getD []) with
      | .ok r => ⟨200, .raw r⟩
      | .error t => ⟨400, .errMsg t.msgOut⟩

/-- Embeds `HTTPMCPServer.handleAirbnbSearchAPI` (http-server.ts lines
273-282): forwards the whole body to the search tool; a thrown error is
caught and reported 500 with the error message. -/
def handleAirbnbSearchAPI (env : ToolEnv) (body : JsObject) : HttpResp :=
  match env.search body with
  | .ok r => ⟨200, .raw r⟩
  | .error t => ⟨500, .errMsg t.msgOut⟩

/-- The params object `{ id, ...req.body }` built by `handleAirbnbListingAPI`
(http-server.ts line 287): the path id first, then the body spread after it —
so under `jsGet`'s later-binding-wins semantics a body `id` shadows the path
value. -/
def listingParams (pathId : String) (body : JsObject) : JsObject :=
  ("id", .str pathId) :: body

/-- Embeds `HTTPMCPServer.handleAirbnbListingAPI` (http-server.ts lines
284-296): forwards `{ id, ...req.body }` to the detail tool; a thrown error
is caught and reported 500 with the error message. -/
def handleAirbnbListingAPI (env : ToolEnv) (pathId : String) (body : JsObject) :
    HttpResp :=
  match env.details (listingParams pathId body) with
  | .ok r => ⟨200, .raw r⟩
  | .error t => ⟨500, .errMsg t.msgOut⟩

/-! ### Terminal error handler (http-server.ts lines 172-185) -/

/-- The error object Express hands the terminal error handler. -/
structure ErrInfo where
  message : String
  stack : String
deriving DecidableEq

/-- A structured log entry: level, event text, and the detail fields. -/
structure LogEntry where
  level : String
  event : String
  fields : List (String × String)
deriving DecidableEq

/-- Embeds the terminal Express error handler (http-server.ts lines 172-185):
logs the failure message and stack with the request path and method, and
replies 500 with a fixed generic body. -/
def expressErrorHandler (err : ErrInfo) (path method : String) :
    HttpResp × LogEntry :=
  (⟨500, .errBody "Internal Server Error" "An unexpected error occurred"⟩,
   ⟨"error", "HTTP Server Error",
     [("error", err.message), ("stack", err.stack),
      ("path", path), ("method", method)]⟩)

/-! ### Stdio runner (index.ts lines 69-137) -/

/-- Embeds the stdio `CallToolRequestSchema` handler (index.ts lines 69-137):
a falsy name, then absent arguments, are rejected with invalid-params SDK
errors; a known tool is invoked with the given arguments; an unknown name
throws method-not-found.  The catch block rethrows `McpError`s (they become
protocol errors, the `Except.error` branch) and converts any other failure
into a `ToolResult` flagged `isError` whose content carries the message and
the clock timestamp `now`. -/
def stdioCallToolHandler (env : ToolEnv) (now : String) (params : MCPParams) :
    Except (ErrorCode × String) ToolResult :=
  let body : Except Thrown ToolResult :=
    match params.name with
    | none => .error (.mcp .invalidParams "Tool name is required")
    | some n =>
      if n = "" then .error (.mcp .invalidParams "Tool name is required")
      else
        match params.arguments with
        | none => .error (.mcp .invalidParams "Tool arguments are required")
        | some args =>
          match n with
          | "airbnb_search" => env.search args
          | "airbnb_listing_details" => env.details args
          | _ => .error (.mcp .methodNotFound ("Unknown tool: " ++ n))
  match body with
  | .ok r => .ok r
  | .error (.mcp c m) => .error (c, m)
  | .error (.jsError m) => .ok ⟨[.errorJson m now], true⟩
  | .error (.nonError r) => .ok ⟨[.errorJson r now], true⟩

/-- A concrete environment whose tools both return an empty success payload;
used to instantiate quantified theorems at concrete inputs. -/
def demoEnv : ToolEnv :=
  ⟨fun _ => .ok ⟨[], false⟩, fun _ => .ok ⟨[], false⟩⟩

/-- A concrete environment whose tools both return an application-level
failure payload (`isError := true`) without throwing. -/
def demoErrEnv : ToolEnv :=
  ⟨fun _ => .ok ⟨[.text "no results"], true⟩, fun _ => .ok ⟨[.text "no results"], true⟩⟩

/-- A concrete environment whose detail tool reports, through the `isError`
bit of its result, whether the arguments it received carried `id = 99`. -/
def detectsId99Env : ToolEnv :=
  ⟨fun _ => .ok ⟨[], false⟩,
   fun args => .ok ⟨[], decide (jsGet args "id" = some (.num 99))⟩⟩

/-! ### Helper lemmas -/

/-- The `startsWith` guard accepts exactly the strings of the form
`"Bearer " ++ t`. -/
theorem jsStartsWith_bearer_iff (h : String) :
    jsStartsWith h "Bearer " = true ↔ ∃ t, h = "Bearer " ++ t := by
  unfold jsStartsWith
  rw [List.isPrefixOf_iff_prefix]
  constructor
  · rintro ⟨rest, hr⟩
    exact ⟨⟨rest⟩, by apply String.ext; simpa [String.data_append] using hr.symm⟩
  · rintro ⟨t, rfl⟩
    exact ⟨t.data, by simp [String.data_append]⟩

/-- Dropping the seven characters of `"Bearer "` recovers the token. -/
theorem jsSubstringFrom_bearer (t : String) :
    jsSubstringFrom ("Bearer " ++ t) 7 = t := by
  apply String.ext
  simp [jsSubstringFrom, String.data_append]

/-- Two bearer headers agree exactly when their tokens do. -/
theorem bearer_append_inj {t₁ t₂ : String}
    (h : "Bearer " ++ t₁ = "Bearer " ++ t₂) : t₁ = t₂ := by
  apply String.ext
  have := congrArg String.data h
  simpa [String.data_append] using this

/-- A bearer header is never the empty string. -/
theorem bearer_ne_empty (t : String) : "Bearer " ++ t ≠ "" := by
  intro h
  have := congrArg String.data h
  simp [String.data_append] at this

/-- `jsGet` on a cons: the later bindings of the tail win over the head. -/
theorem jsGet_cons (k : String) (v : JsonV) (rest : JsObject) :
    jsGet ((k, v) :: rest) k =
      (match jsGet rest k with
       | some w => some w
       | none => some v) := by
  simp [jsGet]

/-! ### C1: id precedence on POST /api/airbnb/listing/:id -/

/-- C1 counterexample: with `id=42` in the path and `{id: 99}` in the body,
the detail tool observes `id = 99` (the body value), not the path value —
the forwarded invocation does not carry the path parameter's id.  With an
id-free body the same tool observes that the id is not 99, i.e. the path id
only survives when the body supplies none. -/
theorem c1_counterexample :
    handleAirbnbListingAPI detectsId99Env "42" [("id", .num 99)] =
      ⟨200, .raw ⟨[], true⟩⟩
    ∧ handleAirbnbListingAPI detectsId99Env "42" [] = ⟨200, .raw ⟨[], false⟩⟩
    ∧ jsGet (listingParams "42" [("id", .num 99)]) "id" = some (.num 99) := by
  exact ⟨rfl, rfl, by decide⟩

/-- C1 (amended): the listing route forwards `{ id, ...req.body }` to the
detail tool, and in that object a body-supplied `id` overrides the path
parameter — precedence is body > path; the path id reaches the tool only
when the body carries no `id` of its own. -/
theorem c1_body_id_overrides_path (env : ToolEnv) (pathId : String)
    (body : JsObject) :
    handleAirbnbListingAPI env pathId body =
      (match env.details (listingParams pathId body) with
       | .ok r => ⟨200, .raw r⟩
       | .error t => ⟨500, .errMsg t.msgOut⟩)
    ∧ jsGet (listingParams pathId body) "id" =
        (match jsGet body "id" with
         | some v => some v
         | none => some (.str pathId)) := by
  refine ⟨rfl, ?_⟩
  rw [listingParams, jsGet_cons]

/-! ### C3: terminal error handler -/

/-- C3: the terminal Express error handler replies HTTP 500 with a fixed
generic body — the response is the same for every error, so it can echo
neither the exception's message nor its stack; those go only to the
server-side log entry, which does carry them. -/
theorem c3_error_handler_generic_500 (e : ErrInfo) (path method : String) :
    (expressErrorHandler e path method).1 =
      ⟨500, .errBody "Internal Server Error" "An unexpected error occurred"⟩
    ∧ (∀ e' p' m', (expressErrorHandler e path method).1 =
        (expressErrorHandler e' p' m').1)
    ∧ ("error", e.message) ∈ (expressErrorHandler e path method).2.fields
    ∧ ("stack", e.stack) ∈ (expressErrorHandler e path method).2.fields :=
  ⟨rfl, fun _ _ _ => rfl, by simp [expressErrorHandler],
   by simp [expressErrorHandler]⟩

/-- `List.contains` agrees with membership on strings. -/
theorem contains_eq_true_iff_mem (l : List String) (x : String) :
    l.contains x = true ↔ x ∈ l := by
  simp [List.contains_iff_exists_mem_beq, beq_iff_eq]

/-! ### C2: exact bearer-token authentication -/

/-- C2: over any injective digest function, any configured token list and any
header, authentication succeeds exactly on headers of the form `Bearer t`
with `t` one of the configured tokens as stored (trimmed, non-empty), and the
identity then carries the token's digest.  A missing header or one not of the
bearer form fails as malformed; a bearer header whose token is any other
string — in particular a strict substring or prefix of a valid token, which
injectivity sends to a different digest — fails as an invalid token.  Both
failures answer HTTP 401, and a 401 is produced exactly when authentication
did not succeed. -/
theorem c2_authenticate_exact (hash : String → String)
    (hinj : Function.Injective hash) (pats : List String)
    (header : Option String) :
    ((∃ d, authenticateToken hash
        (setupAuthentication hash pats).validTokenHashes header = .success d)
      ↔ (∃ t, t ∈ storedPlaintexts pats ∧ header = some ("Bearer " ++ t)))
    ∧ (∀ t, t ∈ storedPlaintexts pats → header = some ("Bearer " ++ t) →
        authenticateToken hash
          (setupAuthentication hash pats).validTokenHashes header = .success (hash t))
    ∧ (header = none →
        authenticateToken hash
          (setupAuthentication hash pats).validTokenHashes header = .malformedHeader)
    ∧ (∀ h, header = some h → jsStartsWith h "Bearer " = false →
        authenticateToken hash
          (setupAuthentication hash pats).validTokenHashes header = .malformedHeader)
    ∧ (∀ t, header = some ("Bearer " ++ t) → t ∉ storedPlaintexts pats →
        authenticateToken hash (setupAuthentication hash pats).validTokenHashes header
          = .invalidToken (truncDigest (hash t)))
    ∧ ((authenticateToken hash
          (setupAuthentication hash pats).validTokenHashes header).httpStatus = none
        ↔ ∃ d, authenticateToken hash
            (setupAuthentication hash pats).validTokenHashes header = .success d)
    ∧ ((authenticateToken hash
          (setupAuthentication hash pats).validTokenHashes header).httpStatus = none
        ∨ (authenticateToken hash
          (setupAuthentication hash pats).validTokenHashes header).httpStatus = some 401) := by
  have store_mem : ∀ x, ((setupAuthentication hash pats).validTokenHashes).contains x = true
      ↔ ∃ t, t ∈ storedPlaintexts pats ∧ hash t = x := by
    intro x
    rw [contains_eq_true_iff_mem]
    simp [setupAuthentication, List.mem_map]
  have succ_case : ∀ t, t ∈ storedPlaintexts pats →
      authenticateToken hash (setupAuthentication hash pats).validTokenHashes
        (some ("Bearer " ++ t)) = .success (hash t) := by
    intro t ht
    simp only [authenticateToken]
    rw [if_neg (bearer_ne_empty t)]
    rw [if_pos ((jsStartsWith_bearer_iff _).mpr ⟨t, rfl⟩)]
    simp only [jsSubstringFrom_bearer]
    rw [if_pos ((store_mem _).mpr ⟨t, ht, rfl⟩)]
  have fail_case : ∀ t, t ∉ storedPlaintexts pats →
      authenticateToken hash (setupAuthentication hash pats).validTokenHashes
        (some ("Bearer " ++ t)) = .invalidToken (truncDigest (hash t)) := by
    intro t ht
    simp only [authenticateToken]
    rw [if_neg (bearer_ne_empty t)]
    rw [if_pos ((jsStartsWith_bearer_iff _).mpr ⟨t, rfl⟩)]
    simp only [jsSubstringFrom_bearer]
    rw [if_neg ?hc]
    case hc =>
      intro hc
      obtain ⟨t', ht', heq⟩ := (store_mem _).mp hc
      exact ht (hinj heq ▸ ht')
  have malformed_none : authenticateToken hash
      (setupAuthentication hash pats).validTokenHashes none = .malformedHeader := rfl
  have malformed_bad : ∀ h, jsStartsWith h "Bearer " = false →
      authenticateToken hash (setupAuthentication hash pats).validTokenHashes
        (some h) = .malformedHeader := by
    intro h hb
    simp only [authenticateToken]
    by_cases he : h = ""
    · rw [if_pos he]
    · rw [if_neg he, if_neg (by simp [hb])]
  refine ⟨?_, ?_, fun hn => hn ▸ malformed_none,
    fun h hh hb => hh ▸ malformed_bad h hb,
    fun t hh ht => hh ▸ fail_case t ht, ?_, ?_⟩
  · constructor
    · rintro ⟨d, hd⟩
      match header with
      | none => simp [malformed_none] at hd
      | some h =>
        by_cases hb : jsStartsWith h "Bearer " = true
        · obtain ⟨t, rfl⟩ := (jsStartsWith_bearer_iff h).mp hb
          by_cases ht : t ∈ storedPlaintexts pats
          · exact ⟨t, ht, rfl⟩
          · rw [fail_case t ht] at hd
            exact absurd hd (by simp)
        · rw [malformed_bad h (by simpa using hb)] at hd
          exact absurd hd (by simp)
    · rintro ⟨t, ht, rfl⟩
      exact ⟨hash t, succ_case t ht⟩
  · intro t ht hh
    exact hh ▸ succ_case t ht
  · cases ho : authenticateToken hash
      (setupAuthentication hash pats).validTokenHashes header <;>
      simp [AuthOutcome.httpStatus]
  · cases ho : authenticateToken hash
      (setupAuthentication hash pats).validTokenHashes header <;>
      simp [AuthOutcome.httpStatus]

/-- Witness for C2: with the identity digest and configured list `["tok1"]`,
the header `Bearer tok1` authenticates and carries the digest, while the
strict prefix `Bearer tok` is rejected as an invalid token. -/
theorem c2_authenticate_exact_witness :
    authenticateToken id (setupAuthentication id ["tok1"]).validTokenHashes
      (some ("Bearer " ++ "tok1")) = .success (id "tok1")
    ∧ authenticateToken id (setupAuthentication id ["tok1"]).validTokenHashes
      (some ("Bearer " ++ "tok")) = .invalidToken (truncDigest (id "tok")) :=
  ⟨(c2_authenticate_exact id Function.injective_id ["tok1"]
      (some ("Bearer " ++ "tok1"))).2.1 "tok1" (by decide) rfl,
   (c2_authenticate_exact id Function.injective_id ["tok1"]
      (some ("Bearer " ++ "tok"))).2.2.2.2.1 "tok" rfl (by decide)⟩

/-- A request whose `jsonrpc` tag is not exactly `"2.0"` is answered by the
version-check branch. -/
theorem handleMCPRequest_bad_version (env : ToolEnv) (req : MCPRequest)
    (h : req.jsonrpc ≠ some "2.0") :
    handleMCPRequest env req =
      ⟨400, .rpcError (idOrNull req.id) .invalidRequest "Invalid JSON-RPC version"⟩ := by
  unfold handleMCPRequest
  rw [if_neg h]

/-- A request with the correct `jsonrpc` tag is answered by encoding the
dispatch outcome. -/
theorem handleMCPRequest_good_version (env : ToolEnv) (req : MCPRequest)
    (h : req.jsonrpc = some "2.0") :
    handleMCPRequest env req = mcpRespond req.id (mcpDispatch env req) := by
  unfold handleMCPRequest
  rw [if_pos h]

/-- `mcpDispatch` on a `tools/list` request. -/
theorem mcpDispatch_tools_list (env : ToolEnv) (req : MCPRequest)
    (hm : req.method = some "tools/list") :
    mcpDispatch env req = .ok (.tools AIRBNB_TOOLS) := by
  simp [mcpDispatch, hm]

/-- `mcpDispatch` on an unrecognized method name. -/
theorem mcpDispatch_unknown_method (env : ToolEnv) (req : MCPRequest) (m : String)
    (hm : req.method = some m) (h1 : m ≠ "tools/list") (h2 : m ≠ "tools/call") :
    mcpDispatch env req = .error (.mcp .methodNotFound ("Method not found: " ++ m)) := by
  unfold mcpDispatch
  rw [hm]
  split
  · rename_i heq
    injection heq with heq
    exact absurd heq h1
  · rename_i heq
    injection heq with heq
    exact absurd heq h2
  · rename_i m' heq
    injection heq with heq
    rw [heq]
  · rename_i heq
    exact absurd heq (by simp)

/-- `mcpDispatch` on `tools/call` without a truthy tool name. -/
theorem mcpDispatch_name_falsy (env : ToolEnv) (req : MCPRequest)
    (hm : req.method = some "tools/call")
    (hfalsy : paramsNameFalsy req.params = true) :
    mcpDispatch env req = .error (.mcp .invalidParams "Tool name is required") := by
  rcases hp : req.params with _ | p
  · simp [mcpDispatch, hm, hp]
  · rw [hp] at hfalsy
    rcases hn : p.name with _ | n
    · simp [mcpDispatch, hm, hp, hn]
    · simp only [paramsNameFalsy, strOptFalsy, hn, decide_eq_true_eq] at hfalsy
      simp [mcpDispatch, hm, hp, hn, hfalsy]

/-- `mcpDispatch` on `tools/call` with a truthy name invokes `callTool` with
`arguments || {}`. -/
theorem mcpDispatch_call (env : ToolEnv) (req : MCPRequest) (p : MCPParams)
    (n : String) (hm : req.method = some "tools/call") (hp : req.params = some p)
    (hn : p.name = some n) (hne : n ≠ "") :
    mcpDispatch env req = (callTool env n (p.arguments.getD [])).map .toolResult := by
  simp [mcpDispatch, hm, hp, hn, hne]

/-- `callTool` on a name outside the registry throws method-not-found. -/
theorem callTool_unknown (env : ToolEnv) (n : String) (args : JsObject)
    (h1 : n ≠ "airbnb_search") (h2 : n ≠ "airbnb_listing_details") :
    callTool env n args = .error (.mcp .methodNotFound ("Unknown tool: " ++ n)) := by
  unfold callTool
  split
  · exact absurd rfl h1
  · exact absurd rfl h2
  · rfl

/-! ### C4: protocol-failure mapping on POST /mcp -/

/-- C4: on `/mcp` the reply status is always 200 or 400, never 500; a
wrong or missing version tag yields 400 with the invalid-request code, an
unknown method 400 with method-not-found, `tools/call` without a truthy name
400 with invalid-params, `tools/call` with an unregistered tool name 400 with
method-not-found, and a successful dispatch 200 with the result.  Every error
code carried by a reply is a member of the closed five-element `ErrorCode`
taxonomy by construction of that type. -/
theorem c4_mcp_error_mapping (env : ToolEnv) (req : MCPRequest) :
    ((handleMCPRequest env req).status = 200 ∨ (handleMCPRequest env req).status = 400)
    ∧ (req.jsonrpc ≠ some "2.0" →
        handleMCPRequest env req =
          ⟨400, .rpcError (idOrNull req.id) .invalidRequest "Invalid JSON-RPC version"⟩)
    ∧ (∀ m, req.jsonrpc = some "2.0" → req.method = some m →
        m ≠ "tools/list" → m ≠ "tools/call" →
        ∃ msg, handleMCPRequest env req =
          ⟨400, .rpcError (idOrNull req.id) .methodNotFound msg⟩)
    ∧ (req.jsonrpc = some "2.0" → req.method = some "tools/call" →
        paramsNameFalsy req.params = true →
        ∃ msg, handleMCPRequest env req =
          ⟨400, .rpcError (idOrNull req.id) .invalidParams msg⟩)
    ∧ (∀ p n, req.jsonrpc = some "2.0" → req.method = some "tools/call" →
        req.params = some p → p.name = some n → n ≠ "" →
        n ≠ "airbnb_search" → n ≠ "airbnb_listing_details" →
        ∃ msg, handleMCPRequest env req =
          ⟨400, .rpcError (idOrNull req.id) .methodNotFound msg⟩)
    ∧ (∀ result, req.jsonrpc = some "2.0" → mcpDispatch env req = .ok result →
        handleMCPRequest env req = ⟨200, .rpcResult req.id result⟩) := by
  refine ⟨?_, fun h => handleMCPRequest_bad_version env req h, ?_, ?_, ?_, ?_⟩
  · by_cases hv : req.jsonrpc = some "2.0"
    · rw [handleMCPRequest_good_version env req hv]
      cases mcpDispatch env req <;> simp [mcpRespond]
    · rw [handleMCPRequest_bad_version env req hv]
      exact Or.inr rfl
  · intro m hv hm h1 h2
    rw [handleMCPRequest_good_version env req hv,
      mcpDispatch_unknown_method env req m hm h1 h2]
    exact ⟨"Method not found: " ++ m, rfl⟩
  · intro hv hm hfalsy
    rw [handleMCPRequest_good_version env req hv,
      mcpDispatch_name_falsy env req hm hfalsy]
    exact ⟨"Tool name is required", rfl⟩
  · intro p n hv hm hp hn hne h1 h2
    rw [handleMCPRequest_good_version env req hv,
      mcpDispatch_call env req p n hm hp hn hne,
      callTool_unknown env n (p.arguments.getD []) h1 h2]
    exact ⟨"Unknown tool: " ++ n, rfl⟩
  · intro result hv hok
    rw [handleMCPRequest_good_version env req hv, hok]
    rfl

/-- Witness for C4: concrete instances of the version-failure, unknown-method,
missing-name, unknown-tool and success branches. -/
theorem c4_mcp_error_mapping_witness :
    handleMCPRequest demoEnv ⟨none, some (.num 1), some "tools/list", none⟩ =
      ⟨400, .rpcError (some (.num 1)) .invalidRequest "Invalid JSON-RPC version"⟩
    ∧ (∃ msg, handleMCPRequest demoEnv
        ⟨some "2.0", some (.num 2), some "resources/read", none⟩ =
        ⟨400, .rpcError (some (.num 2)) .methodNotFound msg⟩)
    ∧ (∃ msg, handleMCPRequest demoEnv
        ⟨some "2.0", some (.num 3), some "tools/call", some ⟨none, none⟩⟩ =
        ⟨400, .rpcError (some (.num 3)) .invalidParams msg⟩)
    ∧ (∃ msg, handleMCPRequest demoEnv
        ⟨some "2.0", some (.num 4), some "tools/call", some ⟨some "nope", none⟩⟩ =
        ⟨400, .rpcError (some (.num 4)) .methodNotFound msg⟩)
    ∧ handleMCPRequest demoEnv ⟨some "2.0", some (.num 5), some "tools/list", none⟩ =
        ⟨200, .rpcResult (some (.num 5)) (.tools AIRBNB_TOOLS)⟩ :=
  ⟨(c4_mcp_error_mapping demoEnv _).2.1 (by decide),
   (c4_mcp_error_mapping demoEnv _).2.2.1 "resources/read" rfl rfl
     (by decide) (by decide),
   (c4_mcp_error_mapping demoEnv _).2.2.2.1 rfl rfl (by decide),
   (c4_mcp_error_mapping demoEnv _).2.2.2.2.1 ⟨some "nope", none⟩ "nope" rfl rfl
     rfl rfl (by decide) (by decide) (by decide),
   (c4_mcp_error_mapping demoEnv _).2.2.2.2.2 (.tools AIRBNB_TOOLS) rfl
     (mcpDispatch_tools_list demoEnv _ rfl)⟩

/-! ### C5: tools/list echoes the id and returns the static catalog -/

/-- C5: a well-formed `tools/list` request is answered 200 with the request
id echoed verbatim (string or number) and the static catalog as the tools
sequence, whose length is the catalog size 2; the catalog in the reply is the
same constant for every call, so repeated calls return identical catalogs. -/
theorem c5_tools_list_echo (env : ToolEnv) (req : MCPRequest)
    (hv : req.jsonrpc = some "2.0") (hm : req.method = some "tools/list") :
    handleMCPRequest env req = ⟨200, .rpcResult req.id (.tools AIRBNB_TOOLS)⟩
    ∧ AIRBNB_TOOLS.length = 2
    ∧ (∀ env' req', req'.jsonrpc = some "2.0" → req'.method = some "tools/list" →
        (handleMCPRequest env' req').body = .rpcResult req'.id (.tools AIRBNB_TOOLS)) := by
  have key : ∀ env' (req' : MCPRequest), req'.jsonrpc = some "2.0" →
      req'.method = some "tools/list" →
      handleMCPRequest env' req' = ⟨200, .rpcResult req'.id (.tools AIRBNB_TOOLS)⟩ := by
    intro env' req' hv' hm'
    rw [handleMCPRequest_good_version env' req' hv']
    unfold mcpDispatch
    rw [hm']
    rfl
  exact ⟨key env req hv hm, rfl,
    fun env' req' hv' hm' => by rw [key env' req' hv' hm']⟩

/-- Witness for C5: a concrete `tools/list` request with a string id is
echoed verbatim with the two-descriptor catalog. -/
theorem c5_tools_list_echo_witness :
    handleMCPRequest demoEnv ⟨some "2.0", some (.str "abc"), some "tools/list", none⟩ =
      ⟨200, .rpcResult (some (.str "abc")) (.tools AIRBNB_TOOLS)⟩
    ∧ AIRBNB_TOOLS.length = 2 :=
  ⟨(c5_tools_list_echo demoEnv ⟨some "2.0", some (.str "abc"), some "tools/list", none⟩
      rfl rfl).1,
   (c5_tools_list_echo demoEnv ⟨some "2.0", some (.str "abc"), some "tools/list", none⟩
      rfl rfl).2.1⟩

/-! ### C6: empty token configuration -/

/-- C6 counterexample: the env value `" "` yields the configured list `[" "]`,
whose trimmed non-empty entries number zero and whose digest set is empty —
yet the no-tokens warning does not fire, because the code tests the raw list
length and `split(',')` on a set variable never yields an empty list. -/
theorem c6_counterexample :
    storedPlaintexts (patsFromEnv (some " ")) = []
    ∧ (setupAuthentication id (patsFromEnv (some " "))).validTokenHashes = []
    ∧ (setupAuthentication id (patsFromEnv (some " "))).warnedNoTokens = false :=
  ⟨by decide, by decide, by decide⟩

/-- C6 (amended): initialization warns exactly when the raw configured list
itself is empty (the token variable unset); and whenever the digest set ends
up empty — also for non-empty lists of blank entries, which trigger no
warning — every authenticated request is rejected with HTTP 401. -/
theorem c6_empty_store_rejects (hash : String → String) (pats : List String)
    (header : Option String) :
    ((setupAuthentication hash pats).warnedNoTokens = true ↔ pats = [])
    ∧ ((setupAuthentication hash pats).validTokenHashes = [] →
        (authenticateToken hash (setupAuthentication hash pats).validTokenHashes
          header).httpStatus = some 401) := by
  constructor
  · simp [setupAuthentication, List.isEmpty_iff]
  · intro hempty
    rw [hempty]
    match header with
    | none => rfl
    | some h =>
      simp only [authenticateToken]
      by_cases he : h = ""
      · rw [if_pos he]
        rfl
      · rw [if_neg he]
        by_cases hb : jsStartsWith h "Bearer " = true
        · rw [if_pos hb]
          simp [AuthOutcome.httpStatus]
        · rw [if_neg hb]
          rfl

/-- Witness for C6 (amended): with the blank-entry configuration of the
counterexample, a bearer request is still rejected 401. -/
theorem c6_empty_store_rejects_witness :
    (authenticateToken id
      (setupAuthentication id (patsFromEnv (some " "))).validTokenHashes
      (some "Bearer x")).httpStatus = some 401 :=
  (c6_empty_store_rejects id (patsFromEnv (some " ")) (some "Bearer x")).2 (by decide)

/-! ### C7: only digests in the store and in the logs -/

/-- C7: the digest set holds exactly the digests of the stored (trimmed,
non-empty) configured tokens; every `tokenHash` field logged by
initialization or by a failed authentication is a truncated digest
`hash(t).substring(0,8) ++ "..."`.  Under the one-wayness assumptions that no
digest equals a configured plaintext and no configured plaintext occurs
inside a truncated digest, no plaintext token is ever in the set or in any
logged field. -/
theorem c7_no_plaintext (hash : String → String) (pats : List String)
    (header : Option String)
    (hfix : ∀ s t, t ∈ storedPlaintexts pats → hash s ≠ t)
    (hsub : ∀ s t, t ∈ storedPlaintexts pats →
        ¬ containsStr (truncDigest (hash s)) t) :
    (∀ x, x ∈ (setupAuthentication hash pats).validTokenHashes ↔
        ∃ t, t ∈ storedPlaintexts pats ∧ x = hash t)
    ∧ (∀ t, t ∈ storedPlaintexts pats →
        t ∉ (setupAuthentication hash pats).validTokenHashes)
    ∧ (∀ l, l ∈ (setupAuthentication hash pats).loadLogs →
        ∃ t, t ∈ storedPlaintexts pats ∧ l = truncDigest (hash t))
    ∧ (∀ l t, l ∈ (setupAuthentication hash pats).loadLogs →
        t ∈ storedPlaintexts pats → ¬ containsStr l t)
    ∧ (∀ l t, authenticateToken hash
          (setupAuthentication hash pats).validTokenHashes header = .invalidToken l →
        t ∈ storedPlaintexts pats → ¬ containsStr l t) := by
  have hmem : ∀ x, x ∈ (setupAuthentication hash pats).validTokenHashes ↔
      ∃ t, t ∈ storedPlaintexts pats ∧ x = hash t := by
    intro x
    simp [setupAuthentication, List.mem_map, eq_comm]
  have hlog : ∀ l, l ∈ (setupAuthentication hash pats).loadLogs ↔
      ∃ t, t ∈ storedPlaintexts pats ∧ l = truncDigest (hash t) := by
    intro l
    simp [setupAuthentication, List.mem_map, eq_comm]
  refine ⟨hmem, ?_, fun l hl => (hlog l).mp hl, ?_, ?_⟩
  · intro t ht hmem'
    obtain ⟨t', _, heq⟩ := (hmem t).mp hmem'
    exact hfix t' t ht heq.symm
  · intro l t hl ht
    obtain ⟨t', _, rfl⟩ := (hlog l).mp hl
    exact hsub t' t ht
  · intro l t hinv ht
    match header with
    | none => exact absurd hinv (by simp [authenticateToken])
    | some h =>
      by_cases he : h = ""
      · exact absurd hinv (by simp [authenticateToken, he])
      · by_cases hb : jsStartsWith h "Bearer " = true
        · by_cases hc : ((setupAuthentication hash pats).validTokenHashes).contains
              (hash (jsSubstringFrom h 7)) = true
          · exact absurd hinv
              (by simp [authenticateToken, he, hb,
                (contains_eq_true_iff_mem _ _).mp hc])
          · have hl : l = truncDigest (hash (jsSubstringFrom h 7)) := by
              have h2 := hinv
              simp only [authenticateToken, if_neg he, if_pos hb] at h2
              rw [if_neg hc] at h2
              injection h2 with h3
              exact h3.symm
            rw [hl]
            exact hsub (jsSubstringFrom h 7) t ht
        · exact absurd hinv (by simp [authenticateToken, he, hb])

/-- Witness for C7: with a constant ten-character digest and the configured
list `["tok1"]`, the plaintext is not in the store, and the log field of a
failed authentication does not contain it. -/
theorem c7_no_plaintext_witness :
    "tok1" ∉ (setupAuthentication (fun _ => "ffffffffff") ["tok1"]).validTokenHashes :=
  (c7_no_plaintext (fun _ => "ffffffffff") ["tok1"] none
    (fun s t ht => by
      have h1 : t = "tok1" := by
        have h0 : storedPlaintexts ["tok1"] = ["tok1"] := by decide
        rw [h0] at ht
        simpa using ht
      rw [h1]
      show ("ffffffffff" : String) ≠ "tok1"
      decide)
    (fun s t ht => by
      have h1 : t = "tok1" := by
        have h0 : storedPlaintexts ["tok1"] = ["tok1"] := by decide
        rw [h0] at ht
        simpa using ht
      rw [h1]
      show ¬ containsStr (truncDigest "ffffffffff") "tok1"
      decide)).2.1 "tok1" (by decide)

/-! ### C8: POST /api/tools/call -/

/-- C8: on the REST call route, a missing (or empty, hence falsy) `name`
is answered 400 with the explicit "Tool name is required" body; when the
named tool returns a result, that result is passed through raw with status
200 — also when it carries `isError = true`, since `r` is arbitrary here. -/
theorem c8_rest_call_tool (env : ToolEnv) (body : CallToolBody) :
    (strOptFalsy body.name = true →
        handleCallTool env body = ⟨400, .errMsg "Tool name is required"⟩)
    ∧ (∀ n r, body.name = some n →
        callTool env n (body.arguments.getD []) = .ok r →
        handleCallTool env body = ⟨200, .raw r⟩) := by
  constructor
  · intro hfalsy
    match hn : body.name with
    | none => simp [handleCallTool, hn]
    | some n =>
      rw [hn] at hfalsy
      simp only [strOptFalsy, decide_eq_true_eq] at hfalsy
      simp [handleCallTool, hn, hfalsy]
  · intro n r hn hok
    have hne : n ≠ "" := by
      intro he
      rw [he] at hok
      rw [callTool_unknown env "" (body.arguments.getD []) (by decide) (by decide)]
        at hok
      exact Except.noConfusion hok
    simp [handleCallTool, hn, hne, hok]

/-- Witness for C8: the empty body is answered 400 with the explicit message,
and a registered tool whose result is an application-level failure
(`isError = true`) still comes back raw with status 200. -/
theorem c8_rest_call_tool_witness :
    handleCallTool demoEnv ⟨none, none⟩ = ⟨400, .errMsg "Tool name is required"⟩
    ∧ handleCallTool demoErrEnv ⟨some "airbnb_search", none⟩ =
        ⟨200, .raw ⟨[.text "no results"], true⟩⟩ :=
  ⟨(c8_rest_call_tool demoEnv ⟨none, none⟩).1 rfl,
   (c8_rest_call_tool demoErrEnv ⟨some "airbnb_search", none⟩).2 "airbnb_search"
     ⟨[.text "no results"], true⟩ rfl rfl⟩

/-! ### C9: missing arguments — stdio rejects, /mcp defaults to {} -/

/-- C9: with a truthy tool name and no `arguments` field, the stdio runner
rejects the call with the invalid-params error "Tool arguments are required",
while `/mcp` treats the request exactly like one with an explicit empty
argument mapping and invokes the tool with `{}`. -/
theorem c9_missing_arguments_divergence (env : ToolEnv) (now : String)
    (n : String) (hn : n ≠ "") (req : MCPRequest)
    (hv : req.jsonrpc = some "2.0") (hm : req.method = some "tools/call")
    (hp : req.params = some ⟨some n, none⟩) :
    stdioCallToolHandler env now ⟨some n, none⟩ =
      .error (.invalidParams, "Tool arguments are required")
    ∧ handleMCPRequest env req =
        handleMCPRequest env { req with params := some ⟨some n, some []⟩ }
    ∧ handleMCPRequest env req =
        mcpRespond req.id ((callTool env n []).map .toolResult) := by
  have hdisp : mcpDispatch env req = (callTool env n []).map .toolResult :=
    mcpDispatch_call env req ⟨some n, none⟩ n hm hp rfl hn
  have hdisp' : mcpDispatch env { req with params := some ⟨some n, some []⟩ } =
      (callTool env n []).map .toolResult :=
    mcpDispatch_call env _ ⟨some n, some []⟩ n hm rfl rfl hn
  refine ⟨?_, ?_, ?_⟩
  · simp [stdioCallToolHandler, hn]
  · rw [handleMCPRequest_good_version env req hv,
      handleMCPRequest_good_version env { req with params := some ⟨some n, some []⟩ }
        (show ({ req with params := some ⟨some n, some []⟩ } :
          MCPRequest).jsonrpc = some "2.0" from hv),
      hdisp, hdisp']
  · rw [handleMCPRequest_good_version env req hv, hdisp]

/-- Witness for C9: a concrete `airbnb_search` call without arguments is
rejected on stdio and invoked with the empty mapping on `/mcp`. -/
theorem c9_missing_arguments_divergence_witness :
    stdioCallToolHandler demoEnv "t0" ⟨some "airbnb_search", none⟩ =
      .error (.invalidParams, "Tool arguments are required")
    ∧ handleMCPRequest demoEnv
        ⟨some "2.0", some (.num 7), some "tools/call", some ⟨some "airbnb_search", none⟩⟩ =
        mcpRespond (some (.num 7)) ((callTool demoEnv "airbnb_search" []).map .toolResult) :=
  ⟨(c9_missing_arguments_divergence demoEnv "t0" "airbnb_search" (by decide)
      ⟨some "2.0", some (.num 7), some "tools/call", some ⟨some "airbnb_search", none⟩⟩
      rfl rfl rfl).1,
   (c9_missing_arguments_divergence demoEnv "t0" "airbnb_search" (by decide)
      ⟨some "2.0", some (.num 7), some "tools/call", some ⟨some "airbnb_search", none⟩⟩
      rfl rfl rfl).2.2⟩

/-! ### C10: id handling on error vs success replies -/

/-- C10: on `/mcp`, every 400 reply carries `request id || null` — so a falsy
id (the number 0, the empty string, or an absent id) becomes null — while a
200 reply echoes the request id verbatim, falsy or not. -/
theorem c10_error_id_or_null (env : ToolEnv) (req : MCPRequest) :
    ((handleMCPRequest env req).status = 400 →
        ∃ c msg, (handleMCPRequest env req).body = .rpcError (idOrNull req.id) c msg)
    ∧ (∀ i, req.id = some i → i.isTruthy = false → idOrNull req.id = none)
    ∧ (req.id = none → idOrNull req.id = none)
    ∧ ((handleMCPRequest env req).status = 200 →
        ∃ result, (handleMCPRequest env req).body = .rpcResult req.id result) := by
  refine ⟨?_, ?_, ?_, ?_⟩
  · intro hst
    by_cases hv : req.jsonrpc = some "2.0"
    · rw [handleMCPRequest_good_version env req hv] at hst ⊢
      match hd : mcpDispatch env req with
      | .ok r =>
        rw [hd] at hst
        exact absurd hst (by simp [mcpRespond])
      | .error t => exact ⟨t.codeOut, t.msgOut, rfl⟩
    · rw [handleMCPRequest_bad_version env req hv]
      exact ⟨.invalidRequest, "Invalid JSON-RPC version", rfl⟩
  · intro i hi hfalsy
    rw [hi]
    simp [idOrNull, hfalsy]
  · intro hi
    rw [hi]
    rfl
  · intro hst
    by_cases hv : req.jsonrpc = some "2.0"
    · rw [handleMCPRequest_good_version env req hv] at hst ⊢
      match hd : mcpDispatch env req with
      | .ok r => exact ⟨r, rfl⟩
      | .error t =>
        rw [hd] at hst
        exact absurd hst (by simp [mcpRespond])
    · rw [handleMCPRequest_bad_version env req hv] at hst
      exact absurd hst (by simp)

/-- Witness for C10: a request with the falsy id 0 and a bad version tag is
answered with a 400 whose id is null (not the echoed 0), and the falsy id is
indeed nullified. -/
theorem c10_error_id_or_null_witness :
    (∃ c msg, (handleMCPRequest demoEnv ⟨none, some (.num 0), none, none⟩).body =
      .rpcError (idOrNull (some (.num 0))) c msg)
    ∧ idOrNull (some (.num 0)) = none :=
  ⟨(c10_error_id_or_null demoEnv ⟨none, some (.num 0), none, none⟩).1 rfl,
   (c10_error_id_or_null demoEnv ⟨none, some (.num 0), none, none⟩).2.1 (.num 0)
     rfl (by decide)⟩

end AirbnbMCP
